import Mathlib

/-!
# Verification of the IntelliLoad analytics dashboard (`app_intelliload.py`)

A shallow embedding of the data-loading, filtering and aggregation logic of
`app_intelliload.py`, together with proofs settling the specification claims.

Modelling conventions:
* Numeric cell values read from the CSV are finite, so they are modelled as
  rationals (`ℚ`).  Results of pandas/numpy floating-point arithmetic, which
  can be `nan`/`inf`, are modelled by the extended type `PFloat` with
  IEEE-754-style special-value propagation (exact rational arithmetic on the
  finite part).
* Python integer division, which raises `ZeroDivisionError` on a zero
  denominator, is modelled by `pyDiv` returning `Except`.
* A pandas `DataFrame` is modelled two ways, matching how each claim uses it:
  as a list of typed `Row` records when all referenced columns are present
  (the filter / rollup pipeline), and as a column-oriented `DF` (an
  association list of named columns) where column absence matters
  (`KeyError` behaviour, the loader, and frame mutation).

Line numbers in doc comments refer to `app_intelliload.py`.
-/

namespace IntelliLoad

/-- IEEE-double-like value: a finite rational, or one of the special values
`nan`, `inf`, `-inf` produced by numpy/pandas arithmetic. -/
inductive PFloat where
  | fin (q : ℚ)
  | nan
  | inf
  | ninf
deriving DecidableEq, Repr

/-- Addition with IEEE special-value propagation (finite part exact). -/
def pfAdd : PFloat → PFloat → PFloat
  | .nan, _ => .nan
  | _, .nan => .nan
  | .inf, .ninf => .nan
  | .ninf, .inf => .nan
  | .inf, _ => .inf
  | _, .inf => .inf
  | .ninf, _ => .ninf
  | _, .ninf => .ninf
  | .fin a, .fin b => .fin (a + b)

/-- numpy / pandas true division: division by zero yields `inf`/`-inf`/`nan`
(with a `RuntimeWarning`), never an exception.  (Signed zero is not
modelled; the dashboard's data columns are non-negative.) -/
def npDiv : PFloat → PFloat → PFloat
  | .nan, _ => .nan
  | _, .nan => .nan
  | .fin a, .fin b =>
      if b = 0 then (if 0 < a then .inf else if a < 0 then .ninf else .nan)
      else .fin (a / b)
  | .inf, .fin b => if b < 0 then .ninf else .inf
  | .ninf, .fin b => if b < 0 then .inf else .ninf
  | .fin _, .inf => .fin 0
  | .fin _, .ninf => .fin 0
  | .inf, .inf => .nan
  | .inf, .ninf => .nan
  | .ninf, .inf => .nan
  | .ninf, .ninf => .nan

/-- Python `/` on plain `int`s (e.g. `len(df)`): raises `ZeroDivisionError`
on a zero denominator. -/
def pyDiv (a b : ℚ) : Except String ℚ :=
  if b = 0 then .error "ZeroDivisionError" else .ok (a / b)

/-- One row of `optimized_assignment.csv`, holding the columns the
filter/rollup pipeline references, after the `order_date` column has been
coerced by `pd.to_datetime(..., errors='coerce')` (line 129): an
unparseable date becomes `NaT`, modelled as `none`. -/
structure Row where
  order_id : String
  vehicle_id : String
  order_date : Option Int
  vehicle_type : String
  customer_segment : String
  load_utilization_ratio : ℚ
  distance_km : ℚ
  total_cost_inr : ℚ
  total_emissions_kg : ℚ
  fuel_cost : ℚ
  delivery_status : String
deriving DecidableEq, Repr

set_option linter.unusedVariables false in
/-- Sidebar filter pipeline, lines 128–148 of `main`.

Line 130 creates the "Select Date Range" widget and binds its value to
`date_range`, but `date_range` is never referenced again: no date predicate
is ever applied to the frame.  The `dateRange` parameter is therefore
carried here, faithfully unused.  The vehicle-type filter (lines 140–141)
and the customer-segment filter (lines 147–148) are equality predicates,
each skipped when the sentinel `"All"` is selected. -/
def applyFilters (rows : List Row) (dateRange : Option (Int × Int))
    (selVehicle selSegment : String) : List Row :=
  let afterVehicle :=
    if selVehicle = "All" then rows
    else rows.filter (fun r => r.vehicle_type == selVehicle)
  if selSegment = "All" then afterVehicle
  else afterVehicle.filter (fun r => r.customer_segment == selSegment)

/-- `get_status` (lines 420–426): the per-vehicle status label. -/
def get_status (util : ℚ) : String :=
  if util < 50 then "🔴 Underutilized"
  else if util > 100 then "🟠 Overloaded"
  else "🟢 Optimal"

/-- Round half to even to an integer, as numpy/pandas rounding does. -/
def rhe (x : ℚ) : ℤ :=
  if x - (⌊x⌋ : ℚ) < 1 / 2 then ⌊x⌋
  else if 1 / 2 < x - (⌊x⌋ : ℚ) then ⌊x⌋ + 1
  else if 2 ∣ ⌊x⌋ then ⌊x⌋ else ⌊x⌋ + 1

/-- `.round(2)`: round half to even at two decimal places. -/
def round2 (x : ℚ) : ℚ := (rhe (100 * x) : ℚ) / 100

/-- Minimum of a nonempty list (pandas `min`); 0 on `[]`, a case the code
never evaluates because `groupby` groups are nonempty. -/
def qmin : List ℚ → ℚ
  | [] => 0
  | [x] => x
  | x :: y :: xs => min x (qmin (y :: xs))

/-- Maximum of a nonempty list (pandas `max`). -/
def qmax : List ℚ → ℚ
  | [] => 0
  | [x] => x
  | x :: y :: xs => max x (qmax (y :: xs))

/-- Arithmetic mean (pandas `mean` on a column without nulls). -/
def qmean (l : List ℚ) : ℚ := l.sum / l.length

/-- One aggregate row of `vehicle_summary` (lines 362–371): the renamed
columns `Orders`, `Avg_Util`, `Min_Util`, `Max_Util`, `Total_Distance`,
`Total_Cost`, `Total_Emissions`, keyed by vehicle id. -/
structure VSummary where
  vehicle_id : String
  Orders : Nat
  Avg_Util : ℚ
  Min_Util : ℚ
  Max_Util : ℚ
  Total_Distance : ℚ
  Total_Cost : ℚ
  Total_Emissions : ℚ
deriving DecidableEq, Repr

/-- The rows of the filtered frame belonging to one vehicle
(`groupby('vehicle_id')` group membership). -/
def groupOf (rows : List Row) (v : String) : List Row :=
  rows.filter (fun r => r.vehicle_id == v)

/-- The aggregate row for one vehicle (lines 362–368): `order_id` count,
mean/min/max of `load_utilization_ratio`, sums of distance/cost/emissions,
all rounded to two decimals by `.round(2)`. -/
def mkSummary (rows : List Row) (v : String) : VSummary :=
  let g := groupOf rows v
  let utils := g.map (fun r => r.load_utilization_ratio)
  { vehicle_id := v
    Orders := g.length
    Avg_Util := round2 (qmean utils)
    Min_Util := round2 (qmin utils)
    Max_Util := round2 (qmax utils)
    Total_Distance := round2 ((g.map (fun r => r.distance_km)).sum)
    Total_Cost := round2 ((g.map (fun r => r.total_cost_inr)).sum)
    Total_Emissions := round2 ((g.map (fun r => r.total_emissions_kg)).sum) }

/-- Ordering used by `sort_values('Avg_Util', ascending=False)` (line 372). -/
def byUtilDesc (a b : VSummary) : Prop := b.Avg_Util ≤ a.Avg_Util

instance : DecidableRel byUtilDesc := fun a b =>
  inferInstanceAs (Decidable (b.Avg_Util ≤ a.Avg_Util))

instance : IsTotal VSummary byUtilDesc := ⟨fun a b => le_total b.Avg_Util a.Avg_Util⟩

instance : IsTrans VSummary byUtilDesc := ⟨fun _ _ _ h1 h2 => le_trans h2 h1⟩

/-- Distinct vehicle ids of the filtered frame, in the ascending key order
`groupby` (with its default `sort=True`) produces. -/
def vehicleKeys (rows : List Row) : List String :=
  List.insertionSort (fun a b => a ≤ b) ((rows.map (fun r => r.vehicle_id)).dedup)

/-- `vehicle_summary` (lines 362–372): group the filtered frame by vehicle
id, aggregate and round each group, then sort by mean utilization
descending. -/
def vehicle_summary (rows : List Row) : List VSummary :=
  List.insertionSort byUtilDesc ((vehicleKeys rows).map (mkSummary rows))

/-- Line 428: the `Status` column is `get_status` applied to `Avg_Util`. -/
def statusOf (s : VSummary) : String := get_status s.Avg_Util

/-- Side metric (line 404): vehicles with mean utilization strictly below the
user slider value (default 50). -/
def countUnderutilized (vs : List VSummary) (utilThreshold : ℚ) : Nat :=
  (vs.filter (fun s => decide (s.Avg_Util < utilThreshold))).length

/-- Side metric (lines 405–406): vehicles with mean utilization in the
inclusive band [50, 90]. -/
def countOptimalBand (vs : List VSummary) : Nat :=
  (vs.filter (fun s => decide (50 ≤ s.Avg_Util) && decide (s.Avg_Util ≤ 90))).length

/-- Side metric (line 407): vehicles with mean utilization strictly above 100. -/
def countOverloaded (vs : List VSummary) : Nat :=
  (vs.filter (fun s => decide (100 < s.Avg_Util))).length

/-- Line 202: `len(optimized_df)`. -/
def totalOrders (rows : List Row) : Nat := rows.length

/-- Line 210: `optimized_df['total_cost_inr'].sum()` (0 on an empty frame). -/
def totalCost (rows : List Row) : ℚ := (rows.map (fun r => r.total_cost_inr)).sum

/-- Line 218: pandas `mean` of the utilization column — `nan` on an empty
frame (numpy 0/0), not an exception. -/
def avgUtil (rows : List Row) : PFloat :=
  npDiv (.fin (rows.map (fun r => r.load_utilization_ratio)).sum) (.fin rows.length)

/-- Line 229: `optimized_df['total_emissions_kg'].sum()`. -/
def totalEmissions (rows : List Row) : ℚ :=
  (rows.map (fun r => r.total_emissions_kg)).sum

/-- Line 237: `optimized_df['vehicle_id'].nunique()`. -/
def uniqueVehicles (rows : List Row) : Nat :=
  (rows.map (fun r => r.vehicle_id)).dedup.length

/-- Line 474: `fuel_cost.sum() / distance_km.sum()` — an unguarded numpy
division, so a zero summed distance yields `inf` (or `nan`), which is then
formatted into the "Cost per KM" metric. -/
def cost_per_km (rows : List Row) : PFloat :=
  npDiv (.fin (rows.map (fun r => r.fuel_cost)).sum)
    (.fin (rows.map (fun r => r.distance_km)).sum)

/-- Line 563: `total_co2 / distance_km.sum()` — likewise unguarded. -/
def co2_per_km (rows : List Row) : PFloat :=
  npDiv (.fin (rows.map (fun r => r.total_emissions_kg)).sum)
    (.fin (rows.map (fun r => r.distance_km)).sum)

/-- Line 650: the `value_counts()` entry for one delivery status (or the
`.get` default 0 when absent), a plain Python `int`. -/
def statusCount (rows : List Row) (s : String) : Nat :=
  (rows.filter (fun r => r.delivery_status == s)).length

/-- Lines 653–654: `on_time_pct = (on_time / len(optimized_df)) * 100`, a
division of plain Python ints: it raises `ZeroDivisionError` when the
filtered frame has no rows. -/
def onTimePct (rows : List Row) : Except String ℚ := do
  let p ← pyDiv (statusCount rows "On-Time") rows.length
  pure (p * 100)

/-- A cell of a column-oriented frame: a string or a numeric value. -/
inductive Cell where
  | str (s : String)
  | num (x : PFloat)
deriving DecidableEq, Repr

/-- Column-oriented view of a pandas `DataFrame`: a row count and an
association list of named columns.  Used where column absence and column
mutation matter. -/
structure DF where
  nrows : Nat
  cols : List (String × List Cell)
deriving DecidableEq, Repr

/-- `pd.DataFrame()`: the empty frame substituted for a missing auxiliary
file (line 91). -/
def emptyDF : DF := ⟨0, []⟩

/-- `df.columns`. -/
def DF.colNames (df : DF) : List String := df.cols.map Prod.fst

/-- `df[c]`: raises `KeyError` when the column is absent. -/
def getCol (df : DF) (c : String) : Except String (List Cell) :=
  match df.cols.lookup c with
  | some v => .ok v
  | none => .error ("KeyError: " ++ c)

/-- `df[c] = vals`: replaces the column if present, else appends it. -/
def setCol (df : DF) (c : String) (vals : List Cell) : DF :=
  if df.colNames.contains c then
    ⟨df.nrows, df.cols.map (fun p => if p.1 = c then (p.1, vals) else p)⟩
  else ⟨df.nrows, df.cols ++ [(c, vals)]⟩

/-- Pandas `Series.sum` over a numeric column. -/
def cellsSum (l : List Cell) : PFloat :=
  l.foldr (fun c acc => match c with | .num x => pfAdd x acc | .str _ => acc) (.fin 0)

/-- Pandas `Series.mean` over a numeric column: sum divided by count,
`nan` when the column is empty. -/
def cellsMean (l : List Cell) : PFloat := npDiv (cellsSum l) (.fin l.length)

/-- Pandas `Series.nunique`. -/
def cellsNunique (l : List Cell) : Nat := l.dedup.length

/-- The five scalar values of the Overview KPI row. -/
structure OverviewKPIs where
  total_orders : Nat
  total_cost : PFloat
  avg_util : PFloat
  total_emissions : PFloat
  unique_vehicles : Nat
deriving DecidableEq, Repr

/-- The Overview KPI row (lines 201–242): `len`, then unguarded column
accesses `df['total_cost_inr']`, `df['load_utilization_ratio']`,
`df['total_emissions_kg']`, `df['vehicle_id']` in source order.  A missing
column raises `KeyError`, which aborts the whole script run — there is no
per-metric guard in this block. -/
def renderOverviewKPIs (df : DF) : Except String OverviewKPIs := do
  let total_orders := df.nrows
  let cost ← getCol df "total_cost_inr"
  let util ← getCol df "load_utilization_ratio"
  let emis ← getCol df "total_emissions_kg"
  let veh ← getCol df "vehicle_id"
  pure { total_orders := total_orders
         total_cost := cellsSum cost
         avg_util := cellsMean util
         total_emissions := cellsSum emis
         unique_vehicles := cellsNunique veh }

/-- Elementwise pandas `Series / Series` division. -/
def cellDiv : Cell → Cell → Cell
  | .num a, .num b => .num (npDiv a b)
  | _, _ => .num .nan

/-- Lines 532–535 of the Cost Analysis tab: when both source columns are
present, `optimized_df['cost_per_util'] = optimized_df['total_cost_inr'] /
optimized_df['load_utilization_ratio']` assigns a derived column into the
filtered frame itself. -/
def costEfficiencyStage (df : DF) : DF :=
  match df.cols.lookup "load_utilization_ratio", df.cols.lookup "total_cost_inr" with
  | some util, some cost =>
      setCol df "cost_per_util" (List.zipWith cellDiv cost util)
  | _, _ => df

/-- Outcome of reading one file path: absent, unreadable (a `pd.read_csv`
exception with its message), or a parsed table. -/
inductive ReadResult where
  | absent
  | unreadable (msg : String)
  | table (t : DF)
deriving Repr

/-- The auxiliary dataset names and paths of `load_data` (lines 75–83). -/
def dataFiles : List (String × String) :=
  [("orders", "data/orders.csv"),
   ("delivery", "data/delivery_performance.csv"),
   ("routes", "data/routes_distance.csv"),
   ("fleet", "data/vehicle_fleet.csv"),
   ("warehouses", "data/warehouse_inventory.csv"),
   ("feedback", "data/customer_feedback.csv"),
   ("costs", "data/cost_breakdown.csv")]

/-- The auxiliary loading loop (lines 85–91): a missing file is replaced by
an empty frame and the loop continues; an unreadable file raises inside
`pd.read_csv`, and the exception escapes to the outer `try` of `load_data`
(line 97), making the whole load fail. -/
def readAux (fs : String → ReadResult) : List (String × String) → Option (List (String × DF))
  | [] => some []
  | (name, path) :: rest =>
      match fs path with
      | .absent => (readAux fs rest).map (fun ds => (name, emptyDF) :: ds)
      | .unreadable _ => none
      | .table t => (readAux fs rest).map (fun ds => (name, t) :: ds)

/-- `load_data` (lines 63–99): if `optimized_assignment.csv` is absent, an
error is shown and `None` is returned for every table; if any
`pd.read_csv` raises, the `except` branch (lines 97–99) likewise returns
all-`None`.  Otherwise the primary table and the auxiliary mapping are
returned (the Python return tuple then drops the unused `costs` entry). -/
def load_data (fs : String → ReadResult) : Option (DF × List (String × DF)) :=
  match fs "optimized_assignment.csv" with
  | .absent => none
  | .unreadable _ => none
  | .table t => (readAux fs dataFiles).map (fun ds => (t, ds))

/-- Lines 111–114 of `main`: the primary table the session goes on to
render, or `none` when `load_data` failed and `st.stop()` halts the script
before any view is produced. -/
def sessionTable (fs : String → ReadResult) : Option DF :=
  match load_data fs with
  | none => none
  | some (t, _) => some t

/-! ### Concrete data used for evaluations -/

/-- A well-formed primary-table row. -/
def exRow : Row :=
  { order_id := "O1", vehicle_id := "V1", order_date := some 5,
    vehicle_type := "Truck", customer_segment := "Retail",
    load_utilization_ratio := 60, distance_km := 10, total_cost_inr := 100,
    total_emissions_kg := 5, fuel_cost := 20, delivery_status := "On-Time" }

/-- A row whose `order_date` cell was unparseable, hence `NaT` after the
line-129 coercion. -/
def rowNullDate : Row := { exRow with order_id := "O2", order_date := none }

/-- A row whose order date (day 100) lies outside the interval [0, 10]. -/
def rowLateDate : Row := { exRow with order_id := "O3", order_date := some 100 }

/-- A row with zero recorded distance. -/
def rowZeroDist : Row := { exRow with distance_km := 0, fuel_cost := 100 }

/-- The spec's three-row scenario: vehicles {V1, V1, V2} with utilizations
{40, 60, 80}. -/
def rows3 : List Row :=
  [{ exRow with order_id := "O1", vehicle_id := "V1", load_utilization_ratio := 40 },
   { exRow with order_id := "O2", vehicle_id := "V1", load_utilization_ratio := 60 },
   { exRow with order_id := "O3", vehicle_id := "V2", load_utilization_ratio := 80 }]

/-- A primary frame lacking the `total_cost_inr` column (all other KPI
columns present). -/
def dfNoCost : DF :=
  ⟨1, [("vehicle_id", [.str "V1"]),
       ("load_utilization_ratio", [.num (.fin 60)]),
       ("total_emissions_kg", [.num (.fin 5)]),
       ("delivery_status", [.str "On-Time"])]⟩

/-- A vehicle summary with mean utilization 95, inside the uncounted gap. -/
def vGap : VSummary := ⟨"V9", 1, 95, 95, 95, 10, 100, 5⟩

/-- A filtered frame carrying both columns the cost-efficiency stage reads. -/
def dfPure : DF :=
  ⟨1, [("total_cost_inr", [.num (.fin 100)]),
       ("load_utilization_ratio", [.num (.fin 50)])]⟩

/-- A small parsed primary table for loader runs. -/
def dfPrimary : DF := ⟨1, [("vehicle_id", [.str "V1"])]⟩

/-- A filesystem where every file is missing. -/
def fsAllAbsent : String → ReadResult := fun _ => .absent

/-- A filesystem where the primary file exists but is malformed. -/
def fsBadPrimary : String → ReadResult := fun p =>
  if p = "optimized_assignment.csv" then .unreadable "ParserError" else .absent

/-- A filesystem with a readable primary file, a missing `orders.csv`, and
every other auxiliary file readable. -/
def fsAuxMissing : String → ReadResult := fun p =>
  if p = "optimized_assignment.csv" then .table dfPrimary
  else if p = "data/orders.csv" then .absent
  else .table dfPrimary

/-! ### Helper lemmas -/

theorem floor_le_rhe (x : ℚ) : ⌊x⌋ ≤ rhe x := by
  unfold rhe
  split_ifs <;> omega

theorem rhe_le_floor_add_one (x : ℚ) : rhe x ≤ ⌊x⌋ + 1 := by
  unfold rhe
  split_ifs <;> omega

theorem rhe_mono {x y : ℚ} (h : x ≤ y) : rhe x ≤ rhe y := by
  rcases lt_or_eq_of_le (Int.floor_le_floor h) with hf | hf
  · calc rhe x ≤ ⌊x⌋ + 1 := rhe_le_floor_add_one x
      _ ≤ ⌊y⌋ := by omega
      _ ≤ rhe y := floor_le_rhe y
  · have hq : ((⌊x⌋ : ℚ)) = ((⌊y⌋ : ℚ)) := by exact_mod_cast hf
    have hxy : x - (⌊x⌋ : ℚ) ≤ y - (⌊y⌋ : ℚ) := by linarith
    unfold rhe
    split_ifs <;> first
      | omega
      | (exfalso; linarith)

theorem round2_mono {x y : ℚ} (h : x ≤ y) : round2 x ≤ round2 y := by
  unfold round2
  have h1 : rhe (100 * x) ≤ rhe (100 * y) := rhe_mono (by linarith)
  have h2 : ((rhe (100 * x) : ℚ)) ≤ ((rhe (100 * y) : ℚ)) := by exact_mod_cast h1
  linarith

theorem qmin_le_of_mem : ∀ {l : List ℚ} {a : ℚ}, a ∈ l → qmin l ≤ a
  | [x], a, h => by
      rcases List.mem_singleton.mp h with rfl
      simp [qmin]
  | x :: y :: xs, a, h => by
      rcases List.mem_cons.mp h with rfl | h'
      · exact le_trans (min_le_left _ _) le_rfl
      · exact le_trans (min_le_right _ _) (qmin_le_of_mem h')

theorem le_qmax_of_mem : ∀ {l : List ℚ} {a : ℚ}, a ∈ l → a ≤ qmax l
  | [x], a, h => by
      rcases List.mem_singleton.mp h with rfl
      simp [qmax]
  | x :: y :: xs, a, h => by
      rcases List.mem_cons.mp h with rfl | h'
      · exact le_max_left _ _
      · exact le_trans (le_qmax_of_mem h') (le_max_right _ _)

theorem qmin_le_qmean {l : List ℚ} (h : l ≠ []) : qmin l ≤ qmean l := by
  have hlen : 0 < (l.length : ℚ) := by
    have := List.length_pos.mpr h
    exact_mod_cast this
  have hs : l.length • qmin l ≤ l.sum :=
    List.card_nsmul_le_sum l (qmin l) (fun _ hx => qmin_le_of_mem hx)
  rw [nsmul_eq_mul] at hs
  rw [qmean, le_div_iff₀ hlen]
  linarith

theorem qmean_le_qmax {l : List ℚ} (h : l ≠ []) : qmean l ≤ qmax l := by
  have hlen : 0 < (l.length : ℚ) := by
    have := List.length_pos.mpr h
    exact_mod_cast this
  have hs : l.sum ≤ l.length • qmax l :=
    List.sum_le_card_nsmul l (qmax l) (fun _ hx => le_qmax_of_mem hx)
  rw [nsmul_eq_mul] at hs
  rw [qmean, div_le_iff₀ hlen]
  linarith

/-- Every member of `vehicle_summary rows` is the aggregate of some vehicle
id occurring in `rows`. -/
theorem mem_vehicle_summary {rows : List Row} {s : VSummary}
    (h : s ∈ vehicle_summary rows) :
    ∃ v, v ∈ rows.map (fun r => r.vehicle_id) ∧ s = mkSummary rows v := by
  unfold vehicle_summary at h
  rw [List.mem_insertionSort] at h
  rcases List.mem_map.mp h with ⟨v, hv, rfl⟩
  refine ⟨v, ?_, rfl⟩
  unfold vehicleKeys at hv
  rw [List.mem_insertionSort] at hv
  exact List.mem_dedup.mp hv

/-- A vehicle id occurring in the frame has a nonempty group. -/
theorem groupOf_ne_nil {rows : List Row} {v : String}
    (h : v ∈ rows.map (fun r => r.vehicle_id)) : groupOf rows v ≠ [] := by
  rcases List.mem_map.mp h with ⟨r, hr, rfl⟩
  intro hnil
  have hmem : r ∈ groupOf rows r.vehicle_id := by
    unfold groupOf
    rw [List.mem_filter]
    exact ⟨hr, by simp⟩
  rw [hnil] at hmem
  exact absurd hmem (List.not_mem_nil r)

/-- When no listed path is unreadable, the auxiliary loop succeeds and maps
each absent path's dataset name to the empty frame. -/
theorem readAux_no_unreadable (fs : String → ReadResult) :
    ∀ files : List (String × String),
      (∀ p ∈ files.map Prod.snd, ∀ m, fs p ≠ .unreadable m) →
      (files.map Prod.fst).Nodup →
      ∃ ds, readAux fs files = some ds ∧
        ∀ nm p, (nm, p) ∈ files → fs p = .absent → ds.lookup nm = some emptyDF
  | [] => by
      intro _ _
      exact ⟨[], rfl, fun nm p h => absurd h (List.not_mem_nil _)⟩
  | (name, path) :: rest => by
      intro hno hnd
      have hrest : ∀ p ∈ rest.map Prod.snd, ∀ m, fs p ≠ .unreadable m := by
        intro p hp m
        exact hno p (by simp [hp]) m
      have hndr : (rest.map Prod.fst).Nodup := by
        rw [List.map_cons, List.nodup_cons] at hnd
        exact hnd.2
      have hname : name ∉ rest.map Prod.fst := by
        rw [List.map_cons, List.nodup_cons] at hnd
        exact hnd.1
      obtain ⟨ds, hds, hlook⟩ := readAux_no_unreadable fs rest hrest hndr
      have tailLookup : ∀ (v : DF), ∀ nm p, (nm, p) ∈ rest → fs p = .absent →
          (((name, v) :: ds).lookup nm = some emptyDF) := by
        intro v nm p hmem habs
        have hne : nm ≠ name := by
          intro hcontra
          subst hcontra
          exact hname (List.mem_map.mpr ⟨(nm, p), hmem, rfl⟩)
        have : (nm == name) = false := beq_false_of_ne hne
        simp only [List.lookup, this]
        exact hlook nm p hmem habs
      cases hfs : fs path with
      | absent =>
          refine ⟨(name, emptyDF) :: ds, ?_, ?_⟩
          · unfold readAux
            rw [hfs, hds]
            rfl
          · intro nm p hmem habs
            rcases List.mem_cons.mp hmem with heq | hmem'
            · rw [Prod.mk.injEq] at heq
              obtain ⟨rfl, rfl⟩ := heq
              simp [List.lookup]
            · exact tailLookup emptyDF nm p hmem' habs
      | unreadable m =>
          exact absurd hfs (hno path (by simp) m)
      | table t =>
          refine ⟨(name, t) :: ds, ?_, ?_⟩
          · unfold readAux
            rw [hfs, hds]
            rfl
          · intro nm p hmem habs
            rcases List.mem_cons.mp hmem with heq | hmem'
            · rw [Prod.mk.injEq] at heq
              obtain ⟨rfl, rfl⟩ := heq
              rw [habs] at hfs
              exact absurd hfs (by simp)
            · exact tailLookup t nm p hmem' habs

/-! ### Claim theorems -/

/-- **C1** — The claim says an active date-range filter keeps exactly the
rows whose date lies in the inclusive interval, excluding null dates.  The
code never applies any date predicate: `applyFilters` is independent of the
date range, and with the range (0, 10) active, both a null-date row and a
row dated outside the range are retained. -/
theorem claim_C1_dateFilterNeverApplied :
    (∀ (rows : List Row) (dr dr' : Option (Int × Int)) (sv ss : String),
      applyFilters rows dr sv ss = applyFilters rows dr' sv ss) ∧
    rowNullDate.order_date = none ∧
    rowLateDate.order_date = some 100 ∧
    applyFilters [rowNullDate, rowLateDate] (some (0, 10)) "All" "All" =
      [rowNullDate, rowLateDate] := by
  refine ⟨fun rows dr dr' sv ss => rfl, rfl, rfl, ?_⟩
  with_unfolding_all decide

/-- **C2** — The claim says cost-per-km and CO₂-per-km report an explicit
undefined value rather than a `nan`/`inf` passed to display.  The code
performs unguarded numpy division: on a frame whose summed distance is 0
both ratios evaluate to `inf` (and to `nan` on an empty frame), and that
value flows straight into `st.metric`.  (It indeed does not raise.) -/
theorem claim_C2_ratioUnguarded :
    cost_per_km [rowZeroDist] = PFloat.inf ∧
    co2_per_km [rowZeroDist] = PFloat.inf ∧
    cost_per_km [] = PFloat.nan ∧
    co2_per_km [] = PFloat.nan := by
  refine ⟨?_, ?_, ?_, ?_⟩ <;> with_unfolding_all decide

/-- **C3** — `get_status` maps utilization strictly below 50 to
Underutilized, 50 to 100 inclusive to Optimal, and strictly above 100 to
Overloaded; checked also at the literal boundary values 49.9, 50.0, 100.0
and 100.1. -/
theorem claim_C3_statusBoundaries :
    (∀ u : ℚ, u < 50 → get_status u = "🔴 Underutilized") ∧
    (∀ u : ℚ, 50 ≤ u → u ≤ 100 → get_status u = "🟢 Optimal") ∧
    (∀ u : ℚ, 100 < u → get_status u = "🟠 Overloaded") ∧
    get_status (499 / 10) = "🔴 Underutilized" ∧
    get_status 50 = "🟢 Optimal" ∧
    get_status 100 = "🟢 Optimal" ∧
    get_status (1001 / 10) = "🟠 Overloaded" := by
  refine ⟨?_, ?_, ?_, ?_, ?_, ?_, ?_⟩
  · intro u h
    unfold get_status
    rw [if_pos h]
  · intro u h1 h2
    unfold get_status
    rw [if_neg (not_lt.mpr h1), if_neg (not_lt.mpr h2)]
  · intro u h
    unfold get_status
    rw [if_neg (not_lt.mpr (by linarith)), if_pos h]
  all_goals with_unfolding_all decide

theorem claim_C3_statusBoundaries_witness :
    get_status 49 = "🔴 Underutilized" ∧
    get_status 75 = "🟢 Optimal" ∧
    get_status 101 = "🟠 Overloaded" :=
  ⟨claim_C3_statusBoundaries.1 49 (by norm_num),
   claim_C3_statusBoundaries.2.1 75 (by norm_num) (by norm_num),
   claim_C3_statusBoundaries.2.2.1 101 (by norm_num)⟩

/-- **C4** — The per-vehicle rollup: every summary row's `Orders` equals the
number of filtered rows with that vehicle id, `Min_Util ≤ Avg_Util ≤
Max_Util` always holds, the rollup is sorted by mean utilization
descending, and the spec's 3-row scenario yields exactly the stated
summaries (V1: Orders 2, Avg 50, Min 40, Max 60, Optimal; V2: Orders 1,
Avg 80, Optimal). -/
theorem claim_C4_vehicleRollup :
    (∀ rows : List Row, ∀ s ∈ vehicle_summary rows,
      s.Orders = (rows.filter (fun r => r.vehicle_id == s.vehicle_id)).length ∧
      s.Min_Util ≤ s.Avg_Util ∧ s.Avg_Util ≤ s.Max_Util) ∧
    (∀ rows : List Row, List.Sorted byUtilDesc (vehicle_summary rows)) ∧
    (vehicle_summary rows3).map
        (fun s => (s.vehicle_id, s.Orders, s.Avg_Util, s.Min_Util, s.Max_Util,
          statusOf s)) =
      [("V2", 1, 80, 80, 80, "🟢 Optimal"),
       ("V1", 2, 50, 40, 60, "🟢 Optimal")] := by
  refine ⟨?_, ?_, ?_⟩
  · intro rows s hs
    rcases mem_vehicle_summary hs with ⟨v, hv, rfl⟩
    have hne : groupOf rows v ≠ [] := groupOf_ne_nil hv
    have hutils : (groupOf rows v).map (fun r => r.load_utilization_ratio) ≠ [] := by
      simpa using hne
    exact ⟨rfl, round2_mono (qmin_le_qmean hutils),
      round2_mono (qmean_le_qmax hutils)⟩
  · intro rows
    exact List.sorted_insertionSort byUtilDesc _
  · with_unfolding_all decide

theorem claim_C4_vehicleRollup_witness :
    (mkSummary rows3 "V1").Orders =
      (rows3.filter
        (fun r => r.vehicle_id == (mkSummary rows3 "V1").vehicle_id)).length ∧
    (mkSummary rows3 "V1").Min_Util ≤ (mkSummary rows3 "V1").Avg_Util ∧
    (mkSummary rows3 "V1").Avg_Util ≤ (mkSummary rows3 "V1").Max_Util :=
  claim_C4_vehicleRollup.1 rows3 (mkSummary rows3 "V1")
    (by with_unfolding_all decide)

/-- **C5** — The claim says every scalar KPI resolves to a defined
zero/undefined value on a zero-row filtered table.  Most do (count 0,
sums 0, numpy mean `nan`), but the delivery-status on-time percentage
(line 654) divides plain Python ints `on_time / len(optimized_df)` and
raises `ZeroDivisionError` on the empty frame produced here by a
vehicle-type selection matching no row. -/
theorem claim_C5_emptyFrameKPIRaises :
    applyFilters [exRow] none "Bike" "All" = [] ∧
    totalOrders [] = 0 ∧
    totalCost [] = 0 ∧
    avgUtil [] = PFloat.nan ∧
    totalEmissions [] = 0 ∧
    uniqueVehicles [] = 0 ∧
    statusCount [] "On-Time" = 0 ∧
    onTimePct [] = Except.error "ZeroDivisionError" := by
  refine ⟨?_, ?_, ?_, ?_, ?_, ?_, ?_, ?_⟩
  all_goals first
    | with_unfolding_all decide
    | with_unfolding_all rfl

/-- **C6** — The claim says a missing expected column only skips the
dependent chart/metric and rendering continues.  The Overview KPI row
accesses `df['total_cost_inr']` with no guard: on a frame lacking that
column the script raises `KeyError`, aborting the whole render instead of
skipping one metric. -/
theorem claim_C6_missingColumnRaises :
    dfNoCost.colNames.contains "total_cost_inr" = false ∧
    renderOverviewKPIs dfNoCost = .error "KeyError: total_cost_inr" := by
  refine ⟨?_, ?_⟩
  · with_unfolding_all decide
  · with_unfolding_all rfl

/-- **C7** — Loader severities: an absent or unreadable primary file makes
`load_data` return the all-`None` result and the session halt with nothing
rendered; when the primary file loads and no auxiliary file is unreadable,
loading succeeds and each absent auxiliary dataset is replaced by an empty
frame. -/
theorem claim_C7_loaderFatalAndDegrade :
    (∀ fs : String → ReadResult, fs "optimized_assignment.csv" = .absent →
      load_data fs = none ∧ sessionTable fs = none) ∧
    (∀ (fs : String → ReadResult) (m : String),
      fs "optimized_assignment.csv" = .unreadable m →
      load_data fs = none ∧ sessionTable fs = none) ∧
    (∀ (fs : String → ReadResult) (t : DF),
      fs "optimized_assignment.csv" = .table t →
      (∀ p ∈ dataFiles.map Prod.snd, ∀ m, fs p ≠ .unreadable m) →
      ∃ ds, load_data fs = some (t, ds) ∧ sessionTable fs = some t ∧
        ∀ nm p, (nm, p) ∈ dataFiles → fs p = .absent →
          ds.lookup nm = some emptyDF) := by
  refine ⟨?_, ?_, ?_⟩
  · intro fs h
    have hl : load_data fs = none := by
      unfold load_data
      rw [h]
    exact ⟨hl, by unfold sessionTable; rw [hl]⟩
  · intro fs m h
    have hl : load_data fs = none := by
      unfold load_data
      rw [h]
    exact ⟨hl, by unfold sessionTable; rw [hl]⟩
  · intro fs t hprim hno
    obtain ⟨ds, hds, hlook⟩ :=
      readAux_no_unreadable fs dataFiles hno (by decide)
    refine ⟨ds, ?_, ?_, hlook⟩
    · unfold load_data
      rw [hprim, hds]
      rfl
    · unfold sessionTable load_data
      rw [hprim, hds]
      rfl

theorem claim_C7_loaderFatalAndDegrade_witness :
    (load_data fsAllAbsent = none ∧ sessionTable fsAllAbsent = none) ∧
    (load_data fsBadPrimary = none ∧ sessionTable fsBadPrimary = none) ∧
    (∃ ds, load_data fsAuxMissing = some (dfPrimary, ds) ∧
      sessionTable fsAuxMissing = some dfPrimary ∧
      ∀ nm p, (nm, p) ∈ dataFiles → fsAuxMissing p = .absent →
        ds.lookup nm = some emptyDF) :=
  ⟨claim_C7_loaderFatalAndDegrade.1 fsAllAbsent rfl,
   claim_C7_loaderFatalAndDegrade.2.1 fsBadPrimary "ParserError"
     (by with_unfolding_all rfl),
   claim_C7_loaderFatalAndDegrade.2.2 fsAuxMissing dfPrimary
     (by with_unfolding_all rfl)
     (by
       intro p hp m
       fin_cases hp <;> simp [fsAuxMissing])⟩

/-- **C8 counterexample** — The claim says the aggregation stage leaves the
filtered table with exactly the same columns as before.  Running the
cost-efficiency block on a frame with both source columns changes the
column list: `cost_per_util` is added. -/
theorem claim_C8_counterexample_mutation :
    (costEfficiencyStage dfPure).colNames ≠ dfPure.colNames := by
  with_unfolding_all decide

/-- **C8 (amended)** — The aggregation stage is otherwise a pure function
of the filtered table, but it appends the derived `cost_per_util` column
(elementwise `total_cost_inr / load_utilization_ratio`) to the frame when
both source columns are present (and the derived column is not already
there); pre-existing columns, their cell values, and the row count are
unchanged, and when either source column is absent the frame is returned
untouched. -/
theorem claim_C8_aggregationAppendsColumn :
    (∀ df : DF,
      df.cols.lookup "total_cost_inr" = none ∨
        df.cols.lookup "load_utilization_ratio" = none →
      costEfficiencyStage df = df) ∧
    (∀ (df : DF) (cost util : List Cell),
      df.cols.lookup "total_cost_inr" = some cost →
      df.cols.lookup "load_utilization_ratio" = some util →
      df.colNames.contains "cost_per_util" = false →
      costEfficiencyStage df =
        ⟨df.nrows, df.cols ++ [("cost_per_util", List.zipWith cellDiv cost util)]⟩) := by
  constructor
  · intro df h
    unfold costEfficiencyStage
    rcases h with h | h
    · rw [h]
      cases df.cols.lookup "load_utilization_ratio" <;> rfl
    · rw [h]
  · intro df cost util hc hu hn
    unfold costEfficiencyStage
    rw [hu, hc]
    unfold setCol
    rw [hn]
    rfl

theorem claim_C8_aggregationAppendsColumn_witness :
    costEfficiencyStage dfPure =
      ⟨dfPure.nrows,
        dfPure.cols ++
          [("cost_per_util",
            List.zipWith cellDiv [Cell.num (.fin 100)] [Cell.num (.fin 50)])]⟩ :=
  claim_C8_aggregationAppendsColumn.2 dfPure
    [Cell.num (.fin 100)] [Cell.num (.fin 50)]
    (by with_unfolding_all rfl) (by with_unfolding_all rfl)
    (by with_unfolding_all decide)

/-- **C9** — Every filter combination yields a sublist of the working table
(subset, original order, rows — hence all columns and cell values —
unchanged), and the sentinel `"All"` for both selectors is the identity. -/
theorem claim_C9_filterSubsetIdentity :
    (∀ (rows : List Row) (dr : Option (Int × Int)) (sv ss : String),
      List.Sublist (applyFilters rows dr sv ss) rows) ∧
    (∀ (rows : List Row) (dr : Option (Int × Int)),
      applyFilters rows dr "All" "All" = rows) := by
  constructor
  · intro rows dr sv ss
    simp only [applyFilters]
    split_ifs <;> first
      | exact List.Sublist.refl _
      | exact List.filter_sublist _
      | exact (List.filter_sublist _).trans (List.filter_sublist _)
  · intro rows dr
    rfl

/-- **C10** — With the default slider threshold 50, the three side counts
use the band [50, 90] for "Optimal" while the per-row `Status` label uses
[50, 100]: any vehicle whose mean utilization lies strictly between 90 and
100 is labeled Optimal in the detailed table yet counted by none of the
three side metrics. -/
theorem claim_C10_sideCountsGap :
    ∀ s : VSummary, 90 < s.Avg_Util → s.Avg_Util < 100 →
      statusOf s = "🟢 Optimal" ∧
      countUnderutilized [s] 50 = 0 ∧
      countOptimalBand [s] = 0 ∧
      countOverloaded [s] = 0 := by
  intro s h1 h2
  refine ⟨?_, ?_, ?_, ?_⟩
  · unfold statusOf get_status
    rw [if_neg (not_lt.mpr (by linarith)), if_neg (not_lt.mpr (le_of_lt h2))]
  · unfold countUnderutilized
    rw [List.filter_cons, List.filter_nil]
    rw [decide_eq_false (not_lt.mpr (by linarith : (50:ℚ) ≤ s.Avg_Util))]
    rfl
  · unfold countOptimalBand
    rw [List.filter_cons, List.filter_nil]
    rw [decide_eq_false (not_le.mpr (by linarith : (90:ℚ) < s.Avg_Util))]
    rw [Bool.and_false]
    rfl
  · unfold countOverloaded
    rw [List.filter_cons, List.filter_nil]
    rw [decide_eq_false (not_lt.mpr (le_of_lt h2))]
    rfl

theorem claim_C10_sideCountsGap_witness :
    statusOf vGap = "🟢 Optimal" ∧
    countUnderutilized [vGap] 50 = 0 ∧
    countOptimalBand [vGap] = 0 ∧
    countOverloaded [vGap] = 0 :=
  claim_C10_sideCountsGap vGap (by norm_num [vGap]) (by norm_num [vGap])

end IntelliLoad
